import Mathlib

/-!
Shallow embedding of the geospatial relevance and aggregation engine of the
DRT_ideahack repository: the functions of src/data/route_filter.py
(find_closest_stop, filter_relevant_routes, create_journey_map) and of
src/utils/location.py (haversine_distance, find_nearest_bus_stop).

Coordinates handled only by comparisons and rational arithmetic are modelled
over ℚ so that the definitions stay executable; the haversine formula of
location.py is modelled over ℝ with the real trigonometric functions.  The
geodesic distance of the external geopy library, called by
find_closest_stop, is an explicit function parameter.  Python dict key
lookups that can fail (feature properties) are modelled as association-list
lookups returning Option, and a KeyError aborting the call is modelled as
Except.error carrying the missing key.
-/

namespace DRT

/-- A stop feature of the stops GeoJSON.  Its geometry coordinates are
stored in GeoJSON order, that is (longitude, latitude). -/
structure StopFeature where
  coordinates : ℚ × ℚ
  STOP_ID : String
  STOP_NAME : String
deriving DecidableEq

/-- The stops collection: a GeoJSON object holding a list of features. -/
structure StopsData where
  features : List StopFeature
deriving DecidableEq

/-- The record that find_closest_stop builds for the winning stop. -/
structure ClosestStop where
  stop_id : String
  stop_name : String
  coordinates : ℚ × ℚ
  distance : ℚ
deriving DecidableEq

/-- The (latitude, longitude) point of a stop feature: the code converts the
stored [lon, lat] pair with stop_point = (stop_coords[1], stop_coords[0]). -/
def stop_point (f : StopFeature) : ℚ × ℚ := (f.coordinates.2, f.coordinates.1)

/-- The candidate record the loop body of find_closest_stop builds from one
feature: its ids, the swapped coordinates and the distance to those swapped
coordinates. -/
def stop_result (dist : ℚ × ℚ → ℚ × ℚ → ℚ) (point : ℚ × ℚ) (f : StopFeature) : ClosestStop :=
  ⟨f.STOP_ID, f.STOP_NAME, stop_point f, dist point (stop_point f)⟩

/-- The distance computed for one feature inside find_closest_stop. -/
def stop_dist (dist : ℚ × ℚ → ℚ × ℚ → ℚ) (point : ℚ × ℚ) (f : StopFeature) : ℚ :=
  dist point (stop_point f)

/-- One iteration of the find_closest_stop loop.  The accumulator none plays
the role of the initial (None, float inf) pair of the code: every distance
compares below inf, so the first feature always replaces it. -/
def closest_step (dist : ℚ × ℚ → ℚ × ℚ → ℚ) (point : ℚ × ℚ)
    (acc : Option ClosestStop) (feature : StopFeature) : Option ClosestStop :=
  match acc with
  | none => some (stop_result dist point feature)
  | some best =>
      if stop_dist dist point feature < best.distance then some (stop_result dist point feature)
      else some best

/-- find_closest_stop of route_filter.py: scan the features, keeping the
record of the strictly closest stop seen so far; an empty feature list
yields none. -/
def find_closest_stop (dist : ℚ × ℚ → ℚ × ℚ → ℚ) (point : ℚ × ℚ)
    (stops_data : StopsData) : Option ClosestStop :=
  stops_data.features.foldl (closest_step dist point) none

/-- A route feature of the routes GeoJSON: a multi-part geometry whose
coordinates are stored in (longitude, latitude) order, and a property map
whose key lookups can fail, as in the Python dict. -/
structure RouteFeature where
  coordinates : List (List (ℚ × ℚ))
  properties : List (String × String)
deriving DecidableEq

/-- The routes collection: a GeoJSON object holding a list of features. -/
structure GeoJsonData where
  features : List RouteFeature
deriving DecidableEq

/-- The padded bounding box built at the top of filter_relevant_routes. -/
structure BoundingRegion where
  min_lat : ℚ
  max_lat : ℚ
  min_lon : ℚ
  max_lon : ℚ
deriving DecidableEq

/-- Lines 46 to 57 of route_filter.py: the axis-aligned rectangle covering
the two endpoints, expanded on every side by max_distance_km / 111 degrees. -/
def build_region (point_a point_b : ℚ × ℚ) (max_distance_km : ℚ) : BoundingRegion :=
  let min_lat := min point_a.1 point_b.1
  let max_lat := max point_a.1 point_b.1
  let min_lon := min point_a.2 point_b.2
  let max_lon := max point_a.2 point_b.2
  let padding := max_distance_km / 111
  ⟨min_lat - padding, max_lat + padding, min_lon - padding, max_lon + padding⟩

/-- The membership test of the inner loop: the coordinate (stored as
(lon, lat)) lies in the region, with inclusive comparisons on all four
edges, exactly as the chained comparisons of the source. -/
def coord_in_region (region : BoundingRegion) (coord : ℚ × ℚ) : Bool :=
  decide (region.min_lat ≤ coord.2) && decide (coord.2 ≤ region.max_lat) &&
  decide (region.min_lon ≤ coord.1) && decide (coord.1 ≤ region.max_lon)

/-- The two inner loops of filter_relevant_routes for one feature: each
coordinate group is scanned; on the first in-region coordinate the route id
is appended and both loops break; after a group with no hit the outer loop
also breaks when the id is already in the accumulator. -/
def scan_feature (region : BoundingRegion) (route_id : String)
    (acc : List String) : List (List (ℚ × ℚ)) → List String
  | [] => acc
  | group :: rest =>
      if group.any (coord_in_region region) then acc ++ [route_id]
      else if route_id ∈ acc then acc
      else scan_feature region route_id acc rest

/-- The feature loop of filter_relevant_routes.  Reading ROUTE_ID from a
feature that lacks it raises KeyError, modelled as Except.error naming the
missing key; the loop never reaches later features in that case. -/
def filter_loop (region : BoundingRegion) :
    List String → List RouteFeature → Except String (List String)
  | acc, [] => .ok acc
  | acc, feature :: rest =>
      match feature.properties.lookup "ROUTE_ID" with
      | none => .error "ROUTE_ID"
      | some route_id =>
          filter_loop region (scan_feature region route_id acc feature.coordinates) rest

/-- filter_relevant_routes of route_filter.py: build the padded region, scan
all features, and return the deduplicated list of relevant route ids (the
source returns list(set(ids))). -/
def filter_relevant_routes (point_a point_b : ℚ × ℚ) (geojson_data : GeoJsonData)
    (max_distance_km : ℚ) : Except String (List String) :=
  match filter_loop (build_region point_a point_b max_distance_km) [] geojson_data.features with
  | .error e => .error e
  | .ok ids => .ok ids.dedup

/-- The default of the max_distance_km parameter of filter_relevant_routes;
create_journey_map calls the filter without supplying it. -/
def max_distance_km_default : ℚ := 1

/-- A live vehicle record as read by create_journey_map. -/
structure Vehicle where
  id : String
  route_id : String
  latitude : ℚ
  longitude : ℚ
deriving DecidableEq

/-- The structured content of the map built by create_journey_map: the two
endpoint markers, the relevant route ids, the two nearest-stop markers, the
vehicle markers drawn, and the route feature groups keyed by their layer
name. -/
structure JourneyMap where
  start_point : ℚ × ℚ
  end_point : ℚ × ℚ
  map_center : ℚ × ℚ
  zoom_start : ℤ
  relevant_routes : List String
  start_stop : Option ClosestStop
  end_stop : Option ClosestStop
  vehicle_markers : List Vehicle
  route_groups : List (String × List RouteFeature)
deriving DecidableEq

/-- Insertion into the route_groups dict of create_journey_map: append the
feature to an existing group, or add a new group at the end (Python dicts
preserve insertion order). -/
def add_to_group : List (String × List RouteFeature) → String → RouteFeature →
    List (String × List RouteFeature)
  | [], name, f => [(name, [f])]
  | (n, fs) :: rest, name, f =>
      if n = name then (n, fs ++ [f]) :: rest
      else (n, fs) :: add_to_group rest name f

/-- The route-group loop of create_journey_map: every feature's ROUTE_ID is
read (KeyError when absent); for relevant features ROUTE_NAME is also read
and the feature is filed under the layer name built from both. -/
def route_groups_build (relevant : List String) :
    List RouteFeature → List (String × List RouteFeature) →
    Except String (List (String × List RouteFeature))
  | [], groups => .ok groups
  | f :: rest, groups =>
      match f.properties.lookup "ROUTE_ID" with
      | none => .error "ROUTE_ID"
      | some rid =>
          if rid ∈ relevant then
            match f.properties.lookup "ROUTE_NAME" with
            | none => .error "ROUTE_NAME"
            | some rname =>
                route_groups_build relevant rest
                  (add_to_group groups ("Route " ++ rid ++ ": " ++ rname) f)
          else route_groups_build relevant rest groups

/-- create_journey_map of route_filter.py, stripped of the folium rendering
calls: it filters the relevant routes (with the default padding), locates
the closest stop to each endpoint, keeps the vehicles whose route_id is
relevant in input order, and groups the relevant route features by layer
name.  An error from a missing property aborts the whole call. -/
def create_journey_map (dist : ℚ × ℚ → ℚ × ℚ → ℚ) (point_a point_b : ℚ × ℚ)
    (vehicles : List Vehicle) (geojson_data : GeoJsonData) (stops_data : StopsData)
    (map_center : ℚ × ℚ) (zoom_start : ℤ) : Except String JourneyMap :=
  match filter_relevant_routes point_a point_b geojson_data max_distance_km_default with
  | .error e => .error e
  | .ok relevant_routes =>
      match route_groups_build relevant_routes geojson_data.features [] with
      | .error e => .error e
      | .ok groups =>
          .ok ⟨point_a, point_b, map_center, zoom_start, relevant_routes,
               find_closest_stop dist point_a stops_data,
               find_closest_stop dist point_b stops_data,
               vehicles.filter (fun v => decide (v.route_id ∈ relevant_routes)),
               groups⟩

/-- Degrees to radians, as math.radians of the Python standard library. -/
noncomputable def radians (x : ℝ) : ℝ := x * (Real.pi / 180)

/-- haversine_distance of location.py: great-circle distance in kilometers
between two (latitude, longitude) pairs, Earth radius 6371 km. -/
noncomputable def haversine_distance (lat1 lon1 lat2 lon2 : ℝ) : ℝ :=
  let rlat1 := radians lat1
  let rlon1 := radians lon1
  let rlat2 := radians lat2
  let rlon2 := radians lon2
  let dlat := rlat2 - rlat1
  let dlon := rlon2 - rlon1
  let a := Real.sin (dlat / 2) ^ 2 + Real.cos rlat1 * Real.cos rlat2 * Real.sin (dlon / 2) ^ 2
  let c := 2 * Real.arcsin (Real.sqrt a)
  let r : ℝ := 6371
  c * r

/-- A bus stop record as read by find_nearest_bus_stop: a latitude, a
longitude, and the rest of the record abstracted as a name. -/
structure BusStop where
  latitude : ℝ
  longitude : ℝ
  name : String

/-- One iteration of the find_nearest_bus_stop loop, with the same
none-for-infinity accumulator convention as closest_step. -/
noncomputable def nearest_step (user_lat user_lon : ℝ)
    (acc : Option (BusStop × ℝ)) (stop : BusStop) : Option (BusStop × ℝ) :=
  let d := haversine_distance user_lat user_lon stop.latitude stop.longitude
  match acc with
  | none => some (stop, d)
  | some best => if d < best.2 then some (stop, d) else some best

/-- find_nearest_bus_stop of location.py: return the stop strictly closest
to the user by haversine distance, or none for an empty list. -/
noncomputable def find_nearest_bus_stop (user_location : ℝ × ℝ)
    (bus_stops : List BusStop) : Option BusStop :=
  (bus_stops.foldl (nearest_step user_location.1 user_location.2) none).map Prod.fst

/-! Helper lemmas. -/

theorem filter_loop_missing_id (region : BoundingRegion) :
    ∀ (features : List RouteFeature) (acc : List String),
      (∃ f ∈ features, f.properties.lookup "ROUTE_ID" = none) →
      filter_loop region acc features = .error "ROUTE_ID" := by
  intro features
  induction features with
  | nil =>
      rintro acc ⟨f, hf, _⟩
      exact absurd hf (List.not_mem_nil f)
  | cons f rest ih =>
      rintro acc ⟨g, hg, hnone⟩
      rcases List.mem_cons.mp hg with rfl | hg'
      · simp only [filter_loop, hnone]
      · cases hl : g.properties.lookup "ROUTE_ID" with
        | none =>
            cases hl2 : f.properties.lookup "ROUTE_ID" with
            | none => simp only [filter_loop, hl2]
            | some rid =>
                simp only [filter_loop, hl2]
                exact ih _ ⟨g, hg', hnone⟩
        | some rid => exact absurd hnone (by simp [hl])

theorem foldl_closest_some (dist : ℚ × ℚ → ℚ × ℚ → ℚ) (point : ℚ × ℚ) :
    ∀ (l : List StopFeature) (b : ClosestStop),
      (l.foldl (closest_step dist point) (some b) = some b ∧
        ∀ g ∈ l, b.distance ≤ stop_dist dist point g) ∨
      (∃ l₁ f l₂, l = l₁ ++ f :: l₂ ∧
        l.foldl (closest_step dist point) (some b) = some (stop_result dist point f) ∧
        stop_dist dist point f < b.distance ∧
        (∀ g ∈ l₁, stop_dist dist point f < stop_dist dist point g) ∧
        (∀ g ∈ l₂, stop_dist dist point f ≤ stop_dist dist point g)) := by
  intro l
  induction l with
  | nil => intro b; left; exact ⟨rfl, by simp⟩
  | cons g rest ih =>
      intro b
      by_cases hg : stop_dist dist point g < b.distance
      · have hstep : closest_step dist point (some b) g = some (stop_result dist point g) := by
          simp [closest_step, hg]
        rcases ih (stop_result dist point g) with ⟨heq, hall⟩ |
          ⟨l₁, f, l₂, hsplit, hres, hlt, hstrict, hweak⟩
        · right
          refine ⟨[], g, rest, by simp, ?_, hg, by simp, ?_⟩
          · rw [List.foldl_cons, hstep]; exact heq
          · intro x hx; exact hall x hx
        · right
          refine ⟨g :: l₁, f, l₂, by simp [hsplit], ?_, ?_, ?_, hweak⟩
          · rw [List.foldl_cons, hstep]; exact hres
          · exact lt_trans hlt hg
          · intro x hx
            rcases List.mem_cons.mp hx with rfl | hx'
            · exact hlt
            · exact hstrict x hx'
      · have hstep : closest_step dist point (some b) g = some b := by
          simp [closest_step, hg]
        have hble : b.distance ≤ stop_dist dist point g := le_of_not_lt hg
        rcases ih b with ⟨heq, hall⟩ | ⟨l₁, f, l₂, hsplit, hres, hlt, hstrict, hweak⟩
        · left
          constructor
          · rw [List.foldl_cons, hstep]; exact heq
          · intro x hx
            rcases List.mem_cons.mp hx with rfl | hx'
            · exact hble
            · exact hall x hx'
        · right
          refine ⟨g :: l₁, f, l₂, by simp [hsplit], ?_, hlt, ?_, hweak⟩
          · rw [List.foldl_cons, hstep]; exact hres
          · intro x hx
            rcases List.mem_cons.mp hx with rfl | hx'
            · exact lt_of_lt_of_le hlt hble
            · exact hstrict x hx'

theorem foldl_closest_mem (dist : ℚ × ℚ → ℚ × ℚ → ℚ) (point : ℚ × ℚ) :
    ∀ (l : List StopFeature) (acc : Option ClosestStop) (r : ClosestStop),
      l.foldl (closest_step dist point) acc = some r →
      acc = some r ∨ ∃ f ∈ l, r = stop_result dist point f := by
  intro l
  induction l with
  | nil => intro acc r h; left; exact h
  | cons g rest ih =>
      intro acc r h
      rw [List.foldl_cons] at h
      rcases ih (closest_step dist point acc g) r h with hacc | ⟨f, hf, hr⟩
      · cases acc with
        | none =>
            right
            exact ⟨g, List.mem_cons_self _ _, (Option.some.inj hacc).symm⟩
        | some best =>
            by_cases hlt : stop_dist dist point g < best.distance
            · right
              refine ⟨g, List.mem_cons_self _ _, ?_⟩
              simp only [closest_step, if_pos hlt] at hacc
              exact (Option.some.inj hacc).symm
            · left
              simp only [closest_step, if_neg hlt] at hacc
              exact hacc
      · right
        exact ⟨f, List.mem_cons_of_mem _ hf, hr⟩

theorem scan_feature_mem (region : BoundingRegion) (route_id : String) :
    ∀ (groups : List (List (ℚ × ℚ))) (acc : List String) (x : String),
      x ∈ scan_feature region route_id acc groups ↔
        x ∈ acc ∨ (x = route_id ∧ ∃ g ∈ groups, ∃ c ∈ g, coord_in_region region c = true) := by
  intro groups
  induction groups with
  | nil =>
      intro acc x
      simp [scan_feature]
  | cons g rest ih =>
      intro acc x
      by_cases hany : g.any (coord_in_region region) = true
      · rcases List.any_eq_true.mp hany with ⟨c, hc, hcr⟩
        rw [scan_feature, if_pos hany]
        simp only [List.mem_append, List.mem_singleton]
        constructor
        · rintro (hx | rfl)
          · exact Or.inl hx
          · exact Or.inr ⟨rfl, g, List.mem_cons_self _ _, c, hc, hcr⟩
        · rintro (hx | ⟨rfl, _⟩)
          · exact Or.inl hx
          · exact Or.inr rfl
      · rw [scan_feature, if_neg hany]
        by_cases hmem : route_id ∈ acc
        · rw [if_pos hmem]
          constructor
          · exact Or.inl
          · rintro (hx | ⟨rfl, _⟩)
            · exact hx
            · exact hmem
        · rw [if_neg hmem, ih]
          constructor
          · rintro (hx | ⟨rfl, gg, hgg, c, hc, hcr⟩)
            · exact Or.inl hx
            · exact Or.inr ⟨rfl, gg, List.mem_cons_of_mem _ hgg, c, hc, hcr⟩
          · rintro (hx | ⟨rfl, gg, hgg, c, hc, hcr⟩)
            · exact Or.inl hx
            · rcases List.mem_cons.mp hgg with rfl | hgg'
              · exact absurd (List.any_eq_true.mpr ⟨c, hc, hcr⟩) hany
              · exact Or.inr ⟨rfl, gg, hgg', c, hc, hcr⟩

theorem filter_loop_ok_mem (region : BoundingRegion) :
    ∀ (features : List RouteFeature) (acc ids : List String),
      filter_loop region acc features = .ok ids →
      ∀ x, x ∈ ids ↔ x ∈ acc ∨ ∃ f ∈ features,
        f.properties.lookup "ROUTE_ID" = some x ∧
        ∃ g ∈ f.coordinates, ∃ c ∈ g, coord_in_region region c = true := by
  intro features
  induction features with
  | nil =>
      intro acc ids h x
      have hai : acc = ids := by simpa [filter_loop] using h
      subst hai
      simp
  | cons f rest ih =>
      intro acc ids h x
      cases hl : f.properties.lookup "ROUTE_ID" with
      | none =>
          rw [filter_loop, hl] at h
          exact absurd h (by simp)
      | some rid =>
          rw [filter_loop, hl] at h
          rw [ih _ _ h x, scan_feature_mem]
          constructor
          · rintro ((hacc | ⟨rfl, hg⟩) | ⟨f', hf', hlook, hg⟩)
            · exact Or.inl hacc
            · exact Or.inr ⟨f, List.mem_cons_self _ _, hl, hg⟩
            · exact Or.inr ⟨f', List.mem_cons_of_mem _ hf', hlook, hg⟩
          · rintro (hacc | ⟨f', hf', hlook, hg⟩)
            · exact Or.inl (Or.inl hacc)
            · rcases List.mem_cons.mp hf' with rfl | hf''
              · rw [hl] at hlook
                exact Or.inl (Or.inr ⟨(Option.some.inj hlook).symm, hg⟩)
              · exact Or.inr ⟨f', hf'', hlook, hg⟩

/-! Claim theorems. -/

/-- C5: build_region expands the rectangle covering the two endpoints by
exactly max_distance_km / 111 degrees, subtracted from both minima and
added to both maxima, and the padding parameter defaults to 1 when the
caller does not supply it. -/
theorem C5_padding_uniform (point_a point_b : ℚ × ℚ) (max_distance_km : ℚ) :
    build_region point_a point_b max_distance_km =
      ⟨min point_a.1 point_b.1 - max_distance_km / 111,
       max point_a.1 point_b.1 + max_distance_km / 111,
       min point_a.2 point_b.2 - max_distance_km / 111,
       max point_a.2 point_b.2 + max_distance_km / 111⟩ ∧
    max_distance_km_default = 1 :=
  ⟨rfl, rfl⟩

/-- C4 counterexample: for a negative padding value the returned region
violates min_lat ≤ max_lat, so the claimed invariant does not hold for
every padding value. -/
theorem C4_counterexample :
    (build_region ((0 : ℚ), 0) (0, 0) (-222)).max_lat <
      (build_region ((0 : ℚ), 0) (0, 0) (-222)).min_lat := by
  norm_num [build_region]

/-- C4 (amended): for every nonnegative padding value, the region built by
build_region satisfies min ≤ max on both axes, and both endpoints lie
within the unpadded extent (the region built with padding 0). -/
theorem C4_region_invariant (a b : ℚ × ℚ) (pkm : ℚ) (h : 0 ≤ pkm) :
    ((build_region a b pkm).min_lat ≤ (build_region a b pkm).max_lat ∧
     (build_region a b pkm).min_lon ≤ (build_region a b pkm).max_lon) ∧
    ((build_region a b 0).min_lat ≤ a.1 ∧ a.1 ≤ (build_region a b 0).max_lat ∧
     (build_region a b 0).min_lon ≤ a.2 ∧ a.2 ≤ (build_region a b 0).max_lon ∧
     (build_region a b 0).min_lat ≤ b.1 ∧ b.1 ≤ (build_region a b 0).max_lat ∧
     (build_region a b 0).min_lon ≤ b.2 ∧ b.2 ≤ (build_region a b 0).max_lon) := by
  have hp : 0 ≤ pkm / 111 := by positivity
  simp only [build_region, zero_div, sub_zero, add_zero]
  refine ⟨⟨?_, ?_⟩, min_le_left _ _, le_max_left _ _, min_le_left _ _, le_max_left _ _,
    min_le_right _ _, le_max_right _ _, min_le_right _ _, le_max_right _ _⟩
  · have h1 : min a.1 b.1 ≤ max a.1 b.1 := min_le_max
    linarith
  · have h2 : min a.2 b.2 ≤ max a.2 b.2 := min_le_max
    linarith

/-- C4 witness: the amended invariant holds at concrete endpoints with
padding 111 km (one degree). -/
theorem C4_region_invariant_witness :
    (0 : ℚ) ≤ 111 ∧
    (((build_region ((1 : ℚ), 2) (3, 4) 111).min_lat ≤ (build_region ((1 : ℚ), 2) (3, 4) 111).max_lat ∧
      (build_region ((1 : ℚ), 2) (3, 4) 111).min_lon ≤ (build_region ((1 : ℚ), 2) (3, 4) 111).max_lon) ∧
     ((build_region ((1 : ℚ), 2) (3, 4) 0).min_lat ≤ 1 ∧ (1 : ℚ) ≤ (build_region ((1 : ℚ), 2) (3, 4) 0).max_lat ∧
      (build_region ((1 : ℚ), 2) (3, 4) 0).min_lon ≤ 2 ∧ (2 : ℚ) ≤ (build_region ((1 : ℚ), 2) (3, 4) 0).max_lon ∧
      (build_region ((1 : ℚ), 2) (3, 4) 0).min_lat ≤ 3 ∧ (3 : ℚ) ≤ (build_region ((1 : ℚ), 2) (3, 4) 0).max_lat ∧
      (build_region ((1 : ℚ), 2) (3, 4) 0).min_lon ≤ 4 ∧ (4 : ℚ) ≤ (build_region ((1 : ℚ), 2) (3, 4) 0).max_lon)) :=
  ⟨by decide, C4_region_invariant (1, 2) (3, 4) 111 (by decide)⟩

/-- C8: the haversine distance of location.py is symmetric in its two
points. -/
theorem C8_haversine_symm (lat1 lon1 lat2 lon2 : ℝ) :
    haversine_distance lat1 lon1 lat2 lon2 = haversine_distance lat2 lon2 lat1 lon1 := by
  have hs : ∀ x y : ℝ, Real.sin ((x - y) / 2) ^ 2 = Real.sin ((y - x) / 2) ^ 2 := by
    intro x y
    have h : (x - y) / 2 = -((y - x) / 2) := by ring
    rw [h, Real.sin_neg]
    ring
  have key : Real.sin ((radians lat2 - radians lat1) / 2) ^ 2 +
      Real.cos (radians lat1) * Real.cos (radians lat2) *
        Real.sin ((radians lon2 - radians lon1) / 2) ^ 2 =
      Real.sin ((radians lat1 - radians lat2) / 2) ^ 2 +
      Real.cos (radians lat2) * Real.cos (radians lat1) *
        Real.sin ((radians lon1 - radians lon2) / 2) ^ 2 := by
    rw [hs (radians lat2) (radians lat1), hs (radians lon2) (radians lon1)]
    ring
  simp only [haversine_distance]
  rw [key]

/-- C9: the nearest-stop lookups return none for an empty stop collection,
without any failure: both find_closest_stop and find_nearest_bus_stop are
total functions yielding the absent value on empty input. -/
theorem C9_nearest_empty (dist : ℚ × ℚ → ℚ × ℚ → ℚ) (point : ℚ × ℚ) (p : ℝ × ℝ) :
    find_closest_stop dist point ⟨[]⟩ = none ∧ find_nearest_bus_stop p [] = none :=
  ⟨rfl, rfl⟩

/-- C2: on a non-empty feature list, find_closest_stop returns the record
built from a feature of minimal distance, and every feature strictly
before the winner in the input order has strictly larger distance, so the
first of several equidistant stops wins. -/
theorem C2_nearest_minimum (dist : ℚ × ℚ → ℚ × ℚ → ℚ) (point : ℚ × ℚ)
    (stops_data : StopsData) (h : stops_data.features ≠ []) :
    ∃ l₁ f l₂, stops_data.features = l₁ ++ f :: l₂ ∧
      find_closest_stop dist point stops_data = some (stop_result dist point f) ∧
      (∀ g ∈ stops_data.features, stop_dist dist point f ≤ stop_dist dist point g) ∧
      (∀ g ∈ l₁, stop_dist dist point f < stop_dist dist point g) := by
  rcases stops_data with ⟨features⟩
  cases features with
  | nil => exact absurd rfl h
  | cons g rest =>
      have hfold : find_closest_stop dist point ⟨g :: rest⟩ =
          rest.foldl (closest_step dist point) (some (stop_result dist point g)) := rfl
      rcases foldl_closest_some dist point rest (stop_result dist point g) with
        ⟨heq, hall⟩ | ⟨l₁, f, l₂, hsplit, hres, hlt, hstrict, hweak⟩
      · refine ⟨[], g, rest, by simp, ?_, ?_, by simp⟩
        · rw [hfold]; exact heq
        · intro x hx
          rcases List.mem_cons.mp hx with rfl | hx'
          · exact le_refl _
          · exact hall x hx'
      · refine ⟨g :: l₁, f, l₂, by simp [hsplit], ?_, ?_, ?_⟩
        · rw [hfold]; exact hres
        · intro x hx
          rcases List.mem_cons.mp hx with rfl | hx'
          · exact le_of_lt hlt
          · rw [hsplit] at hx'
            rcases List.mem_append.mp hx' with hx1 | hx2
            · exact le_of_lt (hstrict x hx1)
            · rcases List.mem_cons.mp hx2 with rfl | hx3
              · exact le_refl _
              · exact hweak x hx3
        · intro x hx
          rcases List.mem_cons.mp hx with rfl | hx'
          · exact hlt
          · exact hstrict x hx'

/-- C2 witness: two equidistant stops under a constant distance function;
the first one in input order is returned. -/
theorem C2_nearest_minimum_witness :
    ((⟨[⟨((0 : ℚ), 0), "A", "SA"⟩, ⟨((1 : ℚ), 1), "B", "SB"⟩]⟩ : StopsData).features ≠ []) ∧
    ∃ l₁ f l₂,
      (⟨[⟨((0 : ℚ), 0), "A", "SA"⟩, ⟨((1 : ℚ), 1), "B", "SB"⟩]⟩ : StopsData).features =
        l₁ ++ f :: l₂ ∧
      find_closest_stop (fun _ _ => (0 : ℚ)) (0, 0)
          ⟨[⟨((0 : ℚ), 0), "A", "SA"⟩, ⟨((1 : ℚ), 1), "B", "SB"⟩]⟩ =
        some (stop_result (fun _ _ => (0 : ℚ)) (0, 0) f) ∧
      (∀ g ∈ (⟨[⟨((0 : ℚ), 0), "A", "SA"⟩, ⟨((1 : ℚ), 1), "B", "SB"⟩]⟩ : StopsData).features,
        stop_dist (fun _ _ => (0 : ℚ)) (0, 0) f ≤ stop_dist (fun _ _ => (0 : ℚ)) (0, 0) g) ∧
      (∀ g ∈ l₁, stop_dist (fun _ _ => (0 : ℚ)) (0, 0) f < stop_dist (fun _ _ => (0 : ℚ)) (0, 0) g) :=
  ⟨by decide,
   C2_nearest_minimum (fun _ _ => (0 : ℚ)) (0, 0)
     ⟨[⟨((0 : ℚ), 0), "A", "SA"⟩, ⟨((1 : ℚ), 1), "B", "SB"⟩]⟩ (by decide)⟩

/-- C10: whenever find_closest_stop returns a record, that record's
coordinates are some stored feature's [lon, lat] pair swapped into
(lat, lon) order, and its distance was computed against that swapped
point. -/
theorem C10_swapped_coordinates (dist : ℚ × ℚ → ℚ × ℚ → ℚ) (point : ℚ × ℚ)
    (stops_data : StopsData) (r : ClosestStop)
    (h : find_closest_stop dist point stops_data = some r) :
    ∃ f ∈ stops_data.features, r.coordinates = (f.coordinates.2, f.coordinates.1) ∧
      r.distance = dist point r.coordinates := by
  rcases foldl_closest_mem dist point stops_data.features none r h with hnone | ⟨f, hf, hr⟩
  · exact absurd hnone (by simp)
  · subst hr
    exact ⟨f, hf, rfl, rfl⟩

/-- C10 witness: a stop stored at [lon 5, lat 6] is reported at (6, 5)
with the distance evaluated at (6, 5). -/
theorem C10_swapped_coordinates_witness :
    (find_closest_stop (fun _ _ => (0 : ℚ)) (0, 0) ⟨[⟨(5, 6), "A", "SA"⟩]⟩ =
      some ⟨"A", "SA", (6, 5), 0⟩) ∧
    ∃ f ∈ (⟨[⟨((5 : ℚ), 6), "A", "SA"⟩]⟩ : StopsData).features,
      (⟨"A", "SA", ((6 : ℚ), 5), 0⟩ : ClosestStop).coordinates =
        (f.coordinates.2, f.coordinates.1) ∧
      (⟨"A", "SA", ((6 : ℚ), 5), 0⟩ : ClosestStop).distance =
        (fun _ _ => (0 : ℚ)) ((0 : ℚ), (0 : ℚ))
          (⟨"A", "SA", ((6 : ℚ), 5), 0⟩ : ClosestStop).coordinates :=
  ⟨rfl,
   C10_swapped_coordinates (fun _ _ => (0 : ℚ)) (0, 0) ⟨[⟨(5, 6), "A", "SA"⟩]⟩
     ⟨"A", "SA", (6, 5), 0⟩ rfl⟩

/-- C3: when filtering succeeds, a route id is in the result exactly when
some feature carrying that id has some coordinate of some geometry part
inside the padded region, with inclusive comparisons on all four edges
(coord_in_region is written with ≤ exactly as the source); consequently a
route id whose features all have empty geometry is never relevant. -/
theorem C3_relevance_characterization (point_a point_b : ℚ × ℚ)
    (geojson_data : GeoJsonData) (max_distance_km : ℚ) (ids : List String)
    (h : filter_relevant_routes point_a point_b geojson_data max_distance_km = .ok ids) :
    (∀ rid, rid ∈ ids ↔ ∃ f ∈ geojson_data.features,
      f.properties.lookup "ROUTE_ID" = some rid ∧
      ∃ g ∈ f.coordinates, ∃ c ∈ g,
        coord_in_region (build_region point_a point_b max_distance_km) c = true) ∧
    (∀ rid, (∀ f ∈ geojson_data.features,
        f.properties.lookup "ROUTE_ID" = some rid → f.coordinates = []) → rid ∉ ids) := by
  have hiff : ∀ rid, rid ∈ ids ↔ ∃ f ∈ geojson_data.features,
      f.properties.lookup "ROUTE_ID" = some rid ∧
      ∃ g ∈ f.coordinates, ∃ c ∈ g,
        coord_in_region (build_region point_a point_b max_distance_km) c = true := by
    intro rid
    unfold filter_relevant_routes at h
    cases hloop : filter_loop (build_region point_a point_b max_distance_km) []
        geojson_data.features with
    | error e => rw [hloop] at h; simp at h
    | ok ids' =>
        rw [hloop] at h
        simp only [Except.ok.injEq] at h
        rw [← h, List.mem_dedup]
        simpa using filter_loop_ok_mem _ _ _ _ hloop rid
  refine ⟨hiff, ?_⟩
  intro rid hempty hmem
  rcases (hiff rid).mp hmem with ⟨f, hf, hlook, g, hg, _⟩
  rw [hempty f hf hlook] at hg
  exact List.not_mem_nil g hg

/-- C3 witness: with endpoints (0,0) and (2,2) and padding 111 km (one
degree), a route whose single coordinate (3,3) sits exactly on the padded
edge is relevant, and a route with empty geometry is not. -/
theorem C3_relevance_characterization_witness :
    (filter_relevant_routes ((0 : ℚ), 0) (2, 2)
        ⟨[⟨[[(3, 3)]], [("ROUTE_ID", "R1")]⟩, ⟨[], [("ROUTE_ID", "R2")]⟩]⟩ 111 =
      .ok ["R1"]) ∧
    ((∀ rid, rid ∈ ["R1"] ↔ ∃ f ∈ (⟨[⟨[[((3 : ℚ), 3)]], [("ROUTE_ID", "R1")]⟩,
          ⟨[], [("ROUTE_ID", "R2")]⟩]⟩ : GeoJsonData).features,
        f.properties.lookup "ROUTE_ID" = some rid ∧
        ∃ g ∈ f.coordinates, ∃ c ∈ g,
          coord_in_region (build_region ((0 : ℚ), 0) (2, 2) 111) c = true) ∧
     (∀ rid, (∀ f ∈ (⟨[⟨[[((3 : ℚ), 3)]], [("ROUTE_ID", "R1")]⟩,
          ⟨[], [("ROUTE_ID", "R2")]⟩]⟩ : GeoJsonData).features,
        f.properties.lookup "ROUTE_ID" = some rid → f.coordinates = []) → rid ∉ ["R1"])) :=
  ⟨by norm_num [filter_relevant_routes, filter_loop, scan_feature, coord_in_region,
      build_region, List.lookup, List.dedup],
   C3_relevance_characterization ((0 : ℚ), 0) (2, 2)
     ⟨[⟨[[(3, 3)]], [("ROUTE_ID", "R1")]⟩, ⟨[], [("ROUTE_ID", "R2")]⟩]⟩ 111 ["R1"]
     (by norm_num [filter_relevant_routes, filter_loop, scan_feature, coord_in_region,
       build_region, List.lookup, List.dedup])⟩

/-- C6: when create_journey_map succeeds, its vehicle markers are exactly
the input vehicles whose route_id belongs to the relevant route ids, in the
original input order (a filter, hence a sublist), and any vehicle with an
unmatched route_id is excluded. -/
theorem C6_vehicles_projection (dist : ℚ × ℚ → ℚ × ℚ → ℚ) (point_a point_b : ℚ × ℚ)
    (vehicles : List Vehicle) (geojson_data : GeoJsonData) (stops_data : StopsData)
    (map_center : ℚ × ℚ) (zoom_start : ℤ) (view : JourneyMap)
    (h : create_journey_map dist point_a point_b vehicles geojson_data stops_data
      map_center zoom_start = .ok view) :
    view.vehicle_markers =
      vehicles.filter (fun v => decide (v.route_id ∈ view.relevant_routes)) ∧
    view.vehicle_markers.Sublist vehicles ∧
    ∀ v ∈ vehicles, v.route_id ∉ view.relevant_routes → v ∉ view.vehicle_markers := by
  unfold create_journey_map at h
  split at h
  · exact absurd h (by simp)
  · split at h
    · exact absurd h (by simp)
    · simp only [Except.ok.injEq] at h
      subst h
      refine ⟨rfl, List.filter_sublist _, ?_⟩
      intro v hv hnot hmem
      rcases List.mem_filter.mp hmem with ⟨_, hdec⟩
      exact hnot (of_decide_eq_true hdec)

/-- C6 witness: with no routes, the single vehicle has an unmatched
route_id and is excluded from the vehicle markers. -/
theorem C6_vehicles_projection_witness :
    (create_journey_map (fun _ _ => (0 : ℚ)) (0, 0) (1, 1) [⟨"v1", "R9", 5, 5⟩] ⟨[]⟩ ⟨[]⟩
        (0, 0) 11 =
      .ok ⟨(0, 0), (1, 1), (0, 0), 11, [], none, none, [], []⟩) ∧
    ((⟨((0 : ℚ), 0), (1, 1), (0, 0), 11, [], none, none, [], []⟩ : JourneyMap).vehicle_markers =
      [⟨"v1", "R9", 5, 5⟩].filter (fun v => decide (v.route_id ∈
        (⟨((0 : ℚ), 0), (1, 1), (0, 0), 11, [], none, none, [], []⟩ : JourneyMap).relevant_routes)) ∧
     (⟨((0 : ℚ), 0), (1, 1), (0, 0), 11, [], none, none, [], []⟩ : JourneyMap).vehicle_markers.Sublist
       [⟨"v1", "R9", 5, 5⟩] ∧
     ∀ v ∈ ([⟨"v1", "R9", 5, 5⟩] : List Vehicle), v.route_id ∉
         (⟨((0 : ℚ), 0), (1, 1), (0, 0), 11, [], none, none, [], []⟩ : JourneyMap).relevant_routes →
       v ∉ (⟨((0 : ℚ), 0), (1, 1), (0, 0), 11, [], none, none, [], []⟩ : JourneyMap).vehicle_markers) :=
  ⟨rfl,
   C6_vehicles_projection (fun _ _ => (0 : ℚ)) (0, 0) (1, 1) [⟨"v1", "R9", 5, 5⟩] ⟨[]⟩ ⟨[]⟩
     (0, 0) 11 ⟨(0, 0), (1, 1), (0, 0), 11, [], none, none, [], []⟩ rfl⟩

/-- C7: the aggregation is a pure function of its arguments: two calls of
create_journey_map with identical inputs produce structurally identical
results. -/
theorem C7_deterministic (dist1 dist2 : ℚ × ℚ → ℚ × ℚ → ℚ) (a1 a2 b1 b2 : ℚ × ℚ)
    (v1 v2 : List Vehicle) (g1 g2 : GeoJsonData) (s1 s2 : StopsData)
    (c1 c2 : ℚ × ℚ) (z1 z2 : ℤ)
    (hd : dist1 = dist2) (ha : a1 = a2) (hb : b1 = b2) (hv : v1 = v2) (hg : g1 = g2)
    (hs : s1 = s2) (hc : c1 = c2) (hz : z1 = z2) :
    create_journey_map dist1 a1 b1 v1 g1 s1 c1 z1 =
      create_journey_map dist2 a2 b2 v2 g2 s2 c2 z2 := by
  subst hd; subst ha; subst hb; subst hv; subst hg; subst hs; subst hc; subst hz
  rfl

/-- C7 witness: two runs on one concrete input bundle agree. -/
theorem C7_deterministic_witness :
    (((fun _ _ => (0 : ℚ)) : ℚ × ℚ → ℚ × ℚ → ℚ) = ((fun _ _ => (0 : ℚ)) : ℚ × ℚ → ℚ × ℚ → ℚ) ∧
     ((0 : ℚ), (0 : ℚ)) = ((0 : ℚ), (0 : ℚ)) ∧
     ((1 : ℚ), (1 : ℚ)) = ((1 : ℚ), (1 : ℚ)) ∧ ([] : List Vehicle) = [] ∧
     (⟨[]⟩ : GeoJsonData) = ⟨[]⟩ ∧ (⟨[]⟩ : StopsData) = ⟨[]⟩ ∧
     ((0 : ℚ), (0 : ℚ)) = ((0 : ℚ), (0 : ℚ)) ∧ (11 : ℤ) = 11) ∧
    create_journey_map (fun _ _ => (0 : ℚ)) (0, 0) (1, 1) [] ⟨[]⟩ ⟨[]⟩ (0, 0) 11 =
      create_journey_map (fun _ _ => (0 : ℚ)) (0, 0) (1, 1) [] ⟨[]⟩ ⟨[]⟩ (0, 0) 11 :=
  ⟨⟨rfl, rfl, rfl, rfl, rfl, rfl, rfl, rfl⟩,
   C7_deterministic (fun _ _ => (0 : ℚ)) (fun _ _ => (0 : ℚ)) (0, 0) (0, 0) (1, 1) (1, 1)
     [] [] ⟨[]⟩ ⟨[]⟩ ⟨[]⟩ ⟨[]⟩ (0, 0) (0, 0) 11 11 rfl rfl rfl rfl rfl rfl rfl rfl⟩

/-- C1 counterexample: a route feature that has ROUTE_ID but lacks
ROUTE_NAME is filtered without any failure, so the claim that a feature
lacking route_id or route_name always raises during filtering is false. -/
theorem C1_counterexample :
    (([(("ROUTE_ID" : String), "R1")] : List (String × String)).lookup "ROUTE_NAME" = none) ∧
    filter_relevant_routes ((0 : ℚ), 0) (1, 1) ⟨[⟨[[(0, 0)]], [("ROUTE_ID", "R1")]⟩]⟩ 111 =
      .ok ["R1"] := by
  constructor
  · rfl
  · norm_num [filter_relevant_routes, filter_loop, scan_feature, coord_in_region,
      build_region, List.lookup, List.dedup]

/-- C1 (amended): whenever some feature lacks the ROUTE_ID property,
filter_relevant_routes fails with the key-lookup error naming the missing
property (not the feature index), and the failure propagates through
create_journey_map, aborting it with no partial result; a feature lacking
only ROUTE_NAME is not detected during filtering. -/
theorem C1_missing_route_id_aborts (dist : ℚ × ℚ → ℚ × ℚ → ℚ)
    (point_a point_b : ℚ × ℚ) (vehicles : List Vehicle) (geojson_data : GeoJsonData)
    (stops_data : StopsData) (map_center : ℚ × ℚ) (zoom_start : ℤ) (max_distance_km : ℚ)
    (h : ∃ f ∈ geojson_data.features, f.properties.lookup "ROUTE_ID" = none) :
    filter_relevant_routes point_a point_b geojson_data max_distance_km = .error "ROUTE_ID" ∧
    create_journey_map dist point_a point_b vehicles geojson_data stops_data map_center
      zoom_start = .error "ROUTE_ID" := by
  have hf : ∀ pkm, filter_relevant_routes point_a point_b geojson_data pkm =
      .error "ROUTE_ID" := by
    intro pkm
    unfold filter_relevant_routes
    rw [filter_loop_missing_id _ _ _ h]
  refine ⟨hf _, ?_⟩
  unfold create_journey_map
  rw [hf max_distance_km_default]

/-- C1 witness: the amended behaviour at a concrete feature list whose only
feature lacks ROUTE_ID. -/
theorem C1_missing_route_id_aborts_witness :
    (∃ f ∈ ([⟨[[((0 : ℚ), 0)]], [("ROUTE_NAME", "X")]⟩] : List RouteFeature),
      f.properties.lookup "ROUTE_ID" = none) ∧
    (filter_relevant_routes ((0 : ℚ), 0) (1, 1) ⟨[⟨[[(0, 0)]], [("ROUTE_NAME", "X")]⟩]⟩ 1 =
        .error "ROUTE_ID" ∧
     create_journey_map (fun _ _ => 0) ((0 : ℚ), 0) (1, 1) []
        ⟨[⟨[[(0, 0)]], [("ROUTE_NAME", "X")]⟩]⟩ ⟨[]⟩ (0, 0) 11 = .error "ROUTE_ID") :=
  ⟨by decide,
   C1_missing_route_id_aborts (fun _ _ => 0) (0, 0) (1, 1) []
     ⟨[⟨[[(0, 0)]], [("ROUTE_NAME", "X")]⟩]⟩ ⟨[]⟩ (0, 0) 11 1 (by decide)⟩

end DRT
